import Mathlib

/-!
Shallow embedding of `src/sharepoint_wrapper/_raw.py`, a thin client for a
document-management REST API.  The five operations (`get_graph_token`,
`get_site`, `get_drives`, `get_children`, `get_file`) each issue one HTTP
request, parse the JSON body, and reshape a few fields.

Modelling choices, each tied to a line of the source:
* An HTTP round trip (`http.request(...)`) is a `Transport`: a function from
  the constructed `Request` to `Except String Response`; the error case is a
  transport-level exception (network failure) carrying its message.
* `Response.bytes` is the raw body (`response.data`); `Response.json` models
  `json.loads(response.data.decode("utf-8"))`: either the parsed value or the
  decode/parse exception message.
* JSON values are the inductive `Json`.  Python `d.get(key, None)` followed by
  `is not None` tests conflates a JSON `null` value with an absent key, so
  `Json.pyGet` returns `none` in both cases.  Python `key in d` is key
  presence regardless of value, so `Json.hasKey` uses `Json.find`.  Python
  `d[key]` raises `KeyError` when absent, modelled by `Json.index` returning
  an error.
* Python `raise Exception(x)` with later `str(e)` stringifies `x`;
  `Json.pyStr` models `str` on the JSON values the code can raise.  Exact
  renderings of lists and dicts are not needed by any claim.
* The `try ... except Exception as e: raise Exception(f"...{str(e)}")` shape
  is one `match` on the inner computation (`*_inner`), re-wrapping any error
  message with the fixed label.
-/

/-- JSON values as produced by `json.loads`: null, booleans, numbers (the
fields the code arithmetic touches are integers), strings, arrays, objects. -/
inductive Json where
  | null : Json
  | bool (b : Bool) : Json
  | num (n : Int) : Json
  | str (s : String) : Json
  | arr (xs : List Json) : Json
  | obj (fields : List (String × Json)) : Json

/-- Key lookup on a JSON object: the stored value when the key is present,
`none` when absent or when the value is not an object.  Dict keys are unique,
so first-match lookup is dict lookup. -/
def Json.find : Json → String → Option Json
  | Json.obj fields, key => List.lookup key fields
  | _, _ => none

/-- Python `key in d`: key presence, regardless of the stored value. -/
def Json.hasKey (j : Json) (key : String) : Bool :=
  (Json.find j key).isSome

/-- Python `d.get(key, None)` as used by the code (always followed by
`is not None` tests or returned raw): a stored JSON `null` becomes Python
`None`, indistinguishable from an absent key, so both map to `none`. -/
def Json.pyGet (j : Json) (key : String) : Option Json :=
  match Json.find j key with
  | some Json.null => none
  | o => o

/-- Python `d[key]`: the value when present, a `KeyError` when absent, a
`TypeError` when `d` is not a dict.  The exact exception text is never
inspected by the code or the spec; only that an exception propagates. -/
def Json.index : Json → String → Except String Json
  | Json.obj fields, key =>
    match List.lookup key fields with
    | some v => Except.ok v
    | none => Except.error ("KeyError: " ++ key)
  | _, _ => Except.error "TypeError: value is not subscriptable"

/-- Whether a JSON value is an object (a Python dict after `json.loads`). -/
def Json.isObj : Json → Bool
  | Json.obj _ => true
  | _ => false

/-- Python `str` on a JSON value, as applied to the argument of a raised
exception.  The code only ever raises strings on the paths any claim
exercises; renderings of the other constructors stand in for Python str. -/
def Json.pyStr : Json → String
  | Json.null => "None"
  | Json.bool true => "True"
  | Json.bool false => "False"
  | Json.num n => toString n
  | Json.str s => s
  | Json.arr _ => "None"
  | Json.obj _ => "None"

/-- An HTTP request as the code constructs it: method, URL, header list, the
form body of the token request (kept as the key-value pairs handed to
`parse.urlencode`), and whether the call passes `retries=False` to the
transport (urllib3 retries by default when the argument is omitted). -/
structure Request where
  method : String
  url : String
  headers : List (String × String)
  formBody : Option (List (String × String))
  retriesDisabled : Bool

/-- An HTTP response: status code, raw body bytes (`response.data`), and the
outcome of `json.loads(response.data.decode("utf-8"))` (parsed value, or the
decode/parse exception message). -/
structure Response where
  status : Nat
  bytes : List Nat
  json : Except String Json

/-- The transport (`http.request`): a request either yields a response or
raises a transport exception carrying a message. -/
abbrev Transport := Request → Except String Response

/-- Modelled from the spec: the fixed OAuth scope constant imported from the
`sharepoint_wrapper._constants` module, which is not part of the provided
sources; the spec says only that it is a fixed scope constant, and no claim
depends on its value. -/
def SCOPE : String := "fixed-oauth-scope"

/-- The POST request built by `get_graph_token` (lines 28-47): identity-host
token URL, form-encoded credentials body, `retries=False` passed. -/
def get_graph_token_request (tenant_domain client_id client_secret : String) :
    Request :=
  { method := "POST"
  , url := "https://login.microsoftonline.com/" ++ tenant_domain
      ++ "/oauth2/v2.0/token"
  , headers := [("Content-Type", "application/x-www-form-urlencoded")]
  , formBody := some
      [ ("grant_type", "client_credentials")
      , ("client_id", client_id)
      , ("client_secret", client_secret)
      , ("scope", SCOPE) ]
  , retriesDisabled := true }

/-- Body of the `try` block of `get_graph_token` (lines 40-59): request,
parse, non-200 check raising `error_description` (default "Unknown error"),
then extraction of `access_token` and computation of the absolute expiry
instant `now + expires_in` when `expires_in` is present.  `now` stands for
`datetime.now().timestamp()` at the call.  A non-numeric `expires_in` makes
the addition raise, caught by the wrapper like every other exception. -/
def get_graph_token_inner (http : Transport) (now : Int)
    (tenant_domain client_id client_secret : String) :
    Except String (Option Json × Option Int) :=
  match http (get_graph_token_request tenant_domain client_id client_secret) with
  | Except.error e => Except.error e
  | Except.ok response =>
    match response.json with
    | Except.error e => Except.error e
    | Except.ok response_data =>
      if response.status != 200 then
        Except.error (match Json.find response_data "error_description" with
                      | some v => Json.pyStr v
                      | none => "Unknown error")
      else
        let token := Json.pyGet response_data "access_token"
        match Json.pyGet response_data "expires_in" with
        | none => Except.ok (token, none)
        | some (Json.num e) => Except.ok (token, some (now + e))
        | some _ => Except.error "TypeError: unsupported operand type for +"

/-- `get_graph_token` (lines 25-62): the `try` body with every exception
re-wrapped as "Error during token retrieval: " plus the original message. -/
def get_graph_token (http : Transport) (now : Int)
    (tenant_domain client_id client_secret : String) :
    Except String (Option Json × Option Int) :=
  match get_graph_token_inner http now tenant_domain client_id client_secret with
  | Except.ok r => Except.ok r
  | Except.error e => Except.error ("Error during token retrieval: " ++ e)

/-- The GET request built by `get_site` (lines 66-79): site-by-path URL,
bearer-token headers, `retries=False` passed. -/
def get_site_request (tenant site token : String) : Request :=
  { method := "GET"
  , url := "https://graph.microsoft.com/v1.0/sites/" ++ tenant
      ++ ".sharepoint.com:/sites/" ++ site
  , headers := [("Accept", "application/json"), ("Authorization", "Bearer " ++ token)]
  , formBody := none
  , retriesDisabled := true }

/-- Body of the `try` block of `get_site` (lines 74-88): request, parse,
non-200 check raising `response_data["error"]["message"]`, then return of the
`id` field (absent becomes `None`). -/
def get_site_inner (http : Transport) (tenant site token : String) :
    Except String (Option Json) :=
  match http (get_site_request tenant site token) with
  | Except.error e => Except.error e
  | Except.ok response =>
    match response.json with
    | Except.error e => Except.error e
    | Except.ok response_data =>
      if response.status != 200 then
        match Json.index response_data "error" with
        | Except.error e => Except.error e
        | Except.ok errObj =>
          match Json.index errObj "message" with
          | Except.error e => Except.error e
          | Except.ok msg => Except.error (Json.pyStr msg)
      else
        Except.ok (Json.pyGet response_data "id")

/-- `get_site` (lines 65-91): the `try` body with every exception re-wrapped
as "Invalid Site: " plus the original message. -/
def get_site (http : Transport) (tenant site token : String) :
    Except String (Option Json) :=
  match get_site_inner http tenant site token with
  | Except.ok r => Except.ok r
  | Except.error e => Except.error ("Invalid Site: " ++ e)

/-- The GET request built by `get_drives` (lines 95-106). -/
def get_drives_request (site_id token : String) : Request :=
  { method := "GET"
  , url := "https://graph.microsoft.com/v1.0/sites/" ++ site_id ++ "/drives"
  , headers := [("Accept", "application/json"), ("Authorization", "Bearer " ++ token)]
  , formBody := none
  , retriesDisabled := true }

/-- The comprehension `[(d.get("id"), d.get("name")) for d in raw_drives]`
(line 117).  A non-dict element makes `d.get` raise `AttributeError`,
propagated like any other exception. -/
def get_drives_items : List Json → Except String (List (Option Json × Option Json))
  | [] => Except.ok []
  | d :: rest =>
    match d with
    | Json.obj fields =>
      match get_drives_items rest with
      | Except.error e => Except.error e
      | Except.ok tail =>
        Except.ok ((Json.pyGet (Json.obj fields) "id",
                    Json.pyGet (Json.obj fields) "name") :: tail)
    | _ => Except.error "AttributeError: value has no attribute get"

/-- Body of the `try` block of `get_drives` (lines 101-119): request, parse,
non-200 check raising `error.message`, then the `value` array (when present
and not `null`) mapped to (id, name) pairs; `[]` otherwise.  A non-array
`value` makes the `for` raise, propagated like any other exception. -/
def get_drives_inner (http : Transport) (site_id token : String) :
    Except String (List (Option Json × Option Json)) :=
  match http (get_drives_request site_id token) with
  | Except.error e => Except.error e
  | Except.ok response =>
    match response.json with
    | Except.error e => Except.error e
    | Except.ok response_data =>
      if response.status != 200 then
        match Json.index response_data "error" with
        | Except.error e => Except.error e
        | Except.ok errObj =>
          match Json.index errObj "message" with
          | Except.error e => Except.error e
          | Except.ok msg => Except.error (Json.pyStr msg)
      else
        match Json.pyGet response_data "value" with
        | none => Except.ok []
        | some (Json.arr xs) => get_drives_items xs
        | some _ => Except.error "TypeError: value is not iterable"

/-- `get_drives` (lines 94-122): the `try` body with every exception
re-wrapped as "Invalid Site: " plus the original message. -/
def get_drives (http : Transport) (site_id token : String) :
    Except String (List (Option Json × Option Json)) :=
  match get_drives_inner http site_id token with
  | Except.ok r => Except.ok r
  | Except.error e => Except.error ("Invalid Site: " ++ e)

/-- Python `s.startswith(p)`: the character sequence of `p` is a prefix of
the character sequence of `s`. -/
def strStartsWith (s p : String) : Bool :=
  List.isPrefixOf p.data s.data

/-- The base-path precondition shared by `get_children` (line 132) and
`get_file` (line 183): `base_path is not None and not
base_path.startswith("/")` triggers the validation failure. -/
def basePathInvalid : Option String → Bool
  | none => false
  | some p => !(strStartsWith p "/")

/-- The exact message of the validation exception (lines 133 and 184). -/
def basePathValidationMsg : String := "Base path must always begin with a slash /"

/-- The GET request built by `get_children` (lines 134-146): the path segment
is empty when `base_path` is `None`, else `:{base_path}:`. -/
def get_children_request (drive_id token : String) (base_path : Option String) :
    Request :=
  { method := "GET"
  , url := "https://graph.microsoft.com/v1.0/drives/" ++ drive_id ++ "/root"
      ++ (match base_path with
          | none => ""
          | some p => ":" ++ p ++ ":")
      ++ "/children"
  , headers := [("Accept", "application/json"), ("Authorization", "Bearer " ++ token)]
  , formBody := none
  , retriesDisabled := true }

/-- The filter of the children comprehension (line 164):
`(category is None) or (category is not None and category in d)`. -/
def childKeep (category : Option String) (d : Json) : Bool :=
  match category with
  | none => true
  | some c => Json.hasKey d c

/-- The kind expression of the children comprehension (line 161):
`"folder" if "folder" in d else "file" if "file" in d else "unknown"`. -/
def childKind (d : Json) : String :=
  if Json.hasKey d "folder" then "folder"
  else if Json.hasKey d "file" then "file"
  else "unknown"

/-- The tuple the children comprehension builds for a kept element
(lines 158-162): `(d.get("name"), d.get("webUrl"), kind)`. -/
def childTuple (d : Json) : Option Json × Option Json × String :=
  (Json.pyGet d "name", Json.pyGet d "webUrl", childKind d)

/-- The children comprehension (lines 157-165): keep the elements passing the
category filter and map each to its tuple.  A non-dict element makes the
filter or `d.get` raise, propagated like any other exception. -/
def get_children_items (category : Option String) :
    List Json → Except String (List (Option Json × Option Json × String))
  | [] => Except.ok []
  | d :: rest =>
    match d with
    | Json.obj fields =>
      if childKeep category (Json.obj fields) then
        match get_children_items category rest with
        | Except.error e => Except.error e
        | Except.ok tail => Except.ok (childTuple (Json.obj fields) :: tail)
      else get_children_items category rest
    | _ => Except.error "AttributeError: value has no attribute get"

/-- Body of the `try` block of `get_children` (lines 141-167): request, parse,
non-200 check raising `error.message`, then the `value` array (when present
and not `null`) filtered and mapped; `[]` otherwise. -/
def get_children_inner (http : Transport) (drive_id token : String)
    (base_path category : Option String) :
    Except String (List (Option Json × Option Json × String)) :=
  match http (get_children_request drive_id token base_path) with
  | Except.error e => Except.error e
  | Except.ok response =>
    match response.json with
    | Except.error e => Except.error e
    | Except.ok response_data =>
      if response.status != 200 then
        match Json.index response_data "error" with
        | Except.error e => Except.error e
        | Except.ok errObj =>
          match Json.index errObj "message" with
          | Except.error e => Except.error e
          | Except.ok msg => Except.error (Json.pyStr msg)
      else
        match Json.pyGet response_data "value" with
        | none => Except.ok []
        | some (Json.arr xs) => get_children_items category xs
        | some _ => Except.error "TypeError: value is not iterable"

/-- `get_children` (lines 125-170): the base-path validation raised before
the `try` block (so never re-wrapped), then the `try` body with every
exception re-wrapped as "Invalid Site: " plus the original message. -/
def get_children (http : Transport) (drive_id token : String)
    (base_path category : Option String) :
    Except String (List (Option Json × Option Json × String)) :=
  if basePathInvalid base_path then
    Except.error basePathValidationMsg
  else
    match get_children_inner http drive_id token base_path category with
    | Except.ok r => Except.ok r
    | Except.error e => Except.error ("Invalid Site: " ++ e)

/-- The GET request built by `get_file` (lines 186-201): the path is
`{base_path or ""}/{file_name}` wrapped in colons.  The source passes no
`retries` argument here; the `retries=False` line (200) is commented out, so
the transport keeps its default retry behaviour and `retriesDisabled` is
`false` for this request alone. -/
def get_file_request (drive_id token file_name : String)
    (base_path : Option String) : Request :=
  { method := "GET"
  , url := "https://graph.microsoft.com/v1.0/drives/" ++ drive_id ++ "/root"
      ++ ":" ++ (match base_path with | none => "" | some p => p)
      ++ "/" ++ file_name ++ ":" ++ "/content"
  , headers := [("Accept", "application/json"), ("Authorization", "Bearer " ++ token)]
  , formBody := none
  , retriesDisabled := false }

/-- Body of the `try` block of `get_file` (lines 195-208): request, then on a
non-200 status parse the body and raise `error.message`; on 200 return the
raw body bytes (`BytesIO(response.data)`). -/
def get_file_inner (http : Transport) (drive_id token file_name : String)
    (base_path : Option String) : Except String (List Nat) :=
  match http (get_file_request drive_id token file_name base_path) with
  | Except.error e => Except.error e
  | Except.ok response =>
    if response.status != 200 then
      match response.json with
      | Except.error e => Except.error e
      | Except.ok response_data =>
        match Json.index response_data "error" with
        | Except.error e => Except.error e
        | Except.ok errObj =>
          match Json.index errObj "message" with
          | Except.error e => Except.error e
          | Except.ok msg => Except.error (Json.pyStr msg)
    else
      Except.ok response.bytes

/-- `get_file` (lines 173-211): the base-path validation raised before the
`try` block (so never re-wrapped), then the `try` body with every exception
re-wrapped as "Invalid Site: " plus the original message. -/
def get_file (http : Transport) (drive_id token file_name : String)
    (base_path : Option String) : Except String (List Nat) :=
  if basePathInvalid base_path then
    Except.error basePathValidationMsg
  else
    match get_file_inner http drive_id token file_name base_path with
    | Except.ok r => Except.ok r
    | Except.error e => Except.error ("Invalid Site: " ++ e)

/-- Whether `sub` occurs as a contiguous run inside the character list. -/
def listInfixOf (sub : List Char) : List Char → Bool
  | [] => List.isPrefixOf sub []
  | c :: rest => List.isPrefixOf sub (c :: rest) || listInfixOf sub rest

/-- Whether the string `sub` occurs as a substring of `s`; used to state that
an error message contains a provider-supplied message. -/
def strContainsStr (s sub : String) : Bool :=
  listInfixOf sub.data s.data

/-- Fixture: a transport whose single request raises a network exception. -/
def netFailTransport : Transport :=
  fun _ => Except.error "connection refused"

/-- Fixture: a 200 response with the given JSON body and an empty byte body. -/
def okResponseOf (j : Json) : Response :=
  { status := 200, bytes := [], json := Except.ok j }

/-- Fixture: a children element carrying a `folder` marker. -/
def folderElem : Json :=
  Json.obj [ ("name", Json.str "Reports")
           , ("webUrl", Json.str "https://host/Reports")
           , ("folder", Json.obj []) ]

/-- Fixture: a children element carrying a `file` marker. -/
def fileElem : Json :=
  Json.obj [ ("name", Json.str "q1.pdf")
           , ("webUrl", Json.str "https://host/q1.pdf")
           , ("file", Json.obj []) ]

/-- Fixture: a children element carrying neither marker. -/
def bareElem : Json :=
  Json.obj [("name", Json.str "odd")]

/-- Fixture: a successful children payload with the three sample elements. -/
def childrenOkJson : Json :=
  Json.obj [("value", Json.arr [folderElem, fileElem, bareElem])]

/-- Fixture: transport returning the successful children payload. -/
def childrenOkTransport : Transport :=
  fun _ => Except.ok (okResponseOf childrenOkJson)

/-- Fixture: a successful token payload. -/
def tokenOkJson : Json :=
  Json.obj [("access_token", Json.str "tok123"), ("expires_in", Json.num 3599)]

/-- Fixture: transport returning the successful token payload. -/
def tokenOkTransport : Transport :=
  fun _ => Except.ok (okResponseOf tokenOkJson)

/-- Fixture: a 400 token response carrying an error description. -/
def tokenErrResponse : Response :=
  { status := 400, bytes := []
  , json := Except.ok (Json.obj [("error_description", Json.str "bad creds")]) }

/-- Fixture: transport returning the 400 token response. -/
def tokenErrTransport : Transport :=
  fun _ => Except.ok tokenErrResponse

/-- Fixture: a 400 token response without an error description. -/
def tokenErrBareResponse : Response :=
  { status := 400, bytes := [], json := Except.ok (Json.obj []) }

/-- Fixture: transport returning the bare 400 token response. -/
def tokenErrBareTransport : Transport :=
  fun _ => Except.ok tokenErrBareResponse

/-- Fixture: a drives payload with one (id, name) element. -/
def drivesOkJson : Json :=
  Json.obj [("value", Json.arr
    [Json.obj [("id", Json.str "d1"), ("name", Json.str "Documents")]])]

/-- Fixture: transport returning the one-element drives payload. -/
def drivesOkTransport : Transport :=
  fun _ => Except.ok (okResponseOf drivesOkJson)

/-- Fixture: transport returning a drives payload with an empty value array. -/
def drivesEmptyTransport : Transport :=
  fun _ => Except.ok (okResponseOf (Json.obj [("value", Json.arr [])]))

/-- Fixture: transport returning a drives payload without a value array. -/
def drivesAbsentTransport : Transport :=
  fun _ => Except.ok (okResponseOf (Json.obj []))

/-- Fixture: a 200 file response whose body is not JSON. -/
def fileOkResponse : Response :=
  { status := 200, bytes := [37, 80, 68, 70], json := Except.error "not json" }

/-- Fixture: transport returning the 200 file response. -/
def fileOkTransport : Transport :=
  fun _ => Except.ok fileOkResponse

/-- Fixture: a 404 file response with a provider error message. -/
def fileErrResponse : Response :=
  { status := 404, bytes := []
  , json := Except.ok (Json.obj
      [("error", Json.obj [("message", Json.str "item not found")])]) }

/-- Fixture: transport returning the 404 file response. -/
def fileErrTransport : Transport :=
  fun _ => Except.ok fileErrResponse

/-- A string starts with its own prefix: used to relate the fixed error
labels to the wrapped messages. -/
theorem strStartsWith_append (p s : String) : strStartsWith (p ++ s) p = true := by
  simp [strStartsWith, List.isPrefixOf_iff_prefix, String.data_append]

/-- An infix check succeeds on any list ending in a run that starts with the
pattern. -/
theorem listInfixOf_of_append (sub pre tail : List Char)
    (h : List.isPrefixOf sub tail = true) :
    listInfixOf sub (pre ++ tail) = true := by
  induction pre with
  | nil =>
    cases tail with
    | nil => simpa [listInfixOf] using h
    | cons c r => simp [listInfixOf, h]
  | cons c r ih => simp [listInfixOf, ih]

/-- A string contains its own suffix: used to state that a wrapped error
message contains the original provider message. -/
theorem strContainsStr_append (p m : String) : strContainsStr (p ++ m) m = true := by
  have h : List.isPrefixOf m.data m.data = true := by
    simp [List.isPrefixOf_iff_prefix]
  simpa [strContainsStr, String.data_append] using
    listInfixOf_of_append m.data p.data m.data h

/-- C1: for every provided base path not starting with "/", both get_children
and get_file stop with the validation error, and their result is the same for
any two transports, so the HTTP request step is never reached; the request is
issued only when the base path is absent or starts with "/". -/
theorem C1_base_path_validated_before_request
    (p : String) (hp : strStartsWith p "/" = false)
    (http http2 : Transport) (drive_id token file_name : String)
    (category : Option String) :
    get_children http drive_id token (some p) category
        = Except.error basePathValidationMsg
    ∧ get_file http drive_id token file_name (some p)
        = Except.error basePathValidationMsg
    ∧ get_children http drive_id token (some p) category
        = get_children http2 drive_id token (some p) category
    ∧ get_file http drive_id token file_name (some p)
        = get_file http2 drive_id token file_name (some p) := by
  have hb : basePathInvalid (some p) = true := by
    simp [basePathInvalid, hp]
  refine ⟨?_, ?_, ?_, ?_⟩ <;> simp [get_children, get_file, hb]

/-- Witness for C1 at the concrete base path "docs". -/
theorem C1_base_path_validated_before_request_witness :
    get_children netFailTransport "d1" "tok" (some "docs") none
        = Except.error basePathValidationMsg
    ∧ get_file netFailTransport "d1" "tok" "q1.pdf" (some "docs")
        = Except.error basePathValidationMsg
    ∧ get_children netFailTransport "d1" "tok" (some "docs") none
        = get_children childrenOkTransport "d1" "tok" (some "docs") none
    ∧ get_file netFailTransport "d1" "tok" "q1.pdf" (some "docs")
        = get_file fileOkTransport "d1" "tok" "q1.pdf" (some "docs") :=
  C1_base_path_validated_before_request "docs" (by decide)
    netFailTransport childrenOkTransport "d1" "tok" "q1.pdf" none

/-- C9: the validation error of get_children and get_file carries exactly the
message "Base path must always begin with a slash /": it is raised before the
catch-and-rewrap block, so it carries no "Invalid Site: " prefix. -/
theorem C9_validation_message_not_wrapped
    (p : String) (hp : strStartsWith p "/" = false)
    (http : Transport) (drive_id token file_name : String)
    (category : Option String) :
    get_children http drive_id token (some p) category
        = Except.error "Base path must always begin with a slash /"
    ∧ get_file http drive_id token file_name (some p)
        = Except.error "Base path must always begin with a slash /"
    ∧ strStartsWith "Base path must always begin with a slash /"
        "Invalid Site: " = false := by
  have hb : basePathInvalid (some p) = true := by
    simp [basePathInvalid, hp]
  refine ⟨?_, ?_, by decide⟩ <;>
    simp [get_children, get_file, hb, basePathValidationMsg]

/-- Witness for C9 at the concrete base path "docs". -/
theorem C9_validation_message_not_wrapped_witness :
    get_children netFailTransport "d1" "tok" (some "docs") none
        = Except.error "Base path must always begin with a slash /"
    ∧ get_file netFailTransport "d1" "tok" "q1.pdf" (some "docs")
        = Except.error "Base path must always begin with a slash /"
    ∧ strStartsWith "Base path must always begin with a slash /"
        "Invalid Site: " = false :=
  C9_validation_message_not_wrapped "docs" (by decide)
    netFailTransport "d1" "tok" "q1.pdf" none

/-- The children comprehension on a list of objects is the filter-then-map of
the source, with no exception raised. -/
theorem get_children_items_of_objs (category : Option String) (elems : List Json)
    (h : ∀ d ∈ elems, Json.isObj d = true) :
    get_children_items category elems
      = Except.ok (List.map childTuple (List.filter (childKeep category) elems)) := by
  induction elems with
  | nil => rfl
  | cons d rest ih =>
    have hd : Json.isObj d = true := h d (List.mem_cons_self d rest)
    have ih2 := ih (fun x hx => h x (List.mem_cons_of_mem d hx))
    cases d with
    | obj fields =>
      by_cases hk : childKeep category (Json.obj fields) = true
      · simp [get_children_items, hk, ih2, List.filter_cons]
      · simp [get_children_items, hk, ih2, List.filter_cons]
    | null => simp [Json.isObj] at hd
    | bool b => simp [Json.isObj] at hd
    | num n => simp [Json.isObj] at hd
    | str s => simp [Json.isObj] at hd
    | arr xs => simp [Json.isObj] at hd

/-- C2: on a 200 children response whose value array is present (all elements
objects, as the remote payload provides), category="folder" keeps exactly the
elements with a "folder" key; the kind component of every tuple is "folder"
when a "folder" key is present, else "file" when a "file" key is present,
else "unknown"; and with no category filter every element is returned,
including those of kind "unknown". -/
theorem C2_children_category_filter_and_kind
    (http : Transport) (drive_id token : String) (base_path : Option String)
    (hbp : basePathInvalid base_path = false)
    (resp : Response) (j : Json) (elems : List Json)
    (hreq : http (get_children_request drive_id token base_path) = Except.ok resp)
    (hstatus : resp.status = 200)
    (hjson : resp.json = Except.ok j)
    (hval : Json.pyGet j "value" = some (Json.arr elems))
    (hobj : ∀ d ∈ elems, Json.isObj d = true) :
    get_children http drive_id token base_path (some "folder")
      = Except.ok (List.map childTuple
          (List.filter (fun d => Json.hasKey d "folder") elems))
    ∧ get_children http drive_id token base_path none
      = Except.ok (List.map childTuple elems)
    ∧ ∀ d : Json, childTuple d
        = (Json.pyGet d "name", Json.pyGet d "webUrl",
           if Json.hasKey d "folder" then "folder"
           else if Json.hasKey d "file" then "file" else "unknown") := by
  have h1 := get_children_items_of_objs (some "folder") elems hobj
  have h2 := get_children_items_of_objs none elems hobj
  refine ⟨?_, ?_, fun d => rfl⟩
  · have hfilter : List.filter (childKeep (some "folder")) elems
        = List.filter (fun d => Json.hasKey d "folder") elems :=
      List.filter_congr (fun a _ => rfl)
    simp [get_children, hbp, get_children_inner, hreq, hjson, hstatus, hval,
      h1, hfilter]
  · have hfilter : List.filter (childKeep none) elems = elems :=
      List.filter_eq_self.mpr (fun a _ => rfl)
    simp [get_children, hbp, get_children_inner, hreq, hjson, hstatus, hval,
      h2, hfilter]

/-- Witness for C2 on a canned children payload with a folder, a file, and a
bare element. -/
theorem C2_children_category_filter_and_kind_witness :
    get_children childrenOkTransport "d1" "tok" none (some "folder")
      = Except.ok [(some (Json.str "Reports"),
                    some (Json.str "https://host/Reports"), "folder")]
    ∧ get_children childrenOkTransport "d1" "tok" none none
      = Except.ok [ (some (Json.str "Reports"),
                     some (Json.str "https://host/Reports"), "folder")
                  , (some (Json.str "q1.pdf"),
                     some (Json.str "https://host/q1.pdf"), "file")
                  , (some (Json.str "odd"), none, "unknown") ]
    ∧ childTuple bareElem = (some (Json.str "odd"), none, "unknown") :=
  ⟨(C2_children_category_filter_and_kind childrenOkTransport "d1" "tok" none rfl
      (okResponseOf childrenOkJson) childrenOkJson [folderElem, fileElem, bareElem]
      rfl rfl rfl rfl (by decide)).1,
   (C2_children_category_filter_and_kind childrenOkTransport "d1" "tok" none rfl
      (okResponseOf childrenOkJson) childrenOkJson [folderElem, fileElem, bareElem]
      rfl rfl rfl rfl (by decide)).2.1,
   (C2_children_category_filter_and_kind childrenOkTransport "d1" "tok" none rfl
      (okResponseOf childrenOkJson) childrenOkJson [folderElem, fileElem, bareElem]
      rfl rfl rfl rfl (by decide)).2.2 bareElem⟩

/-- The drives comprehension on a list of objects is the map of the source,
with no exception raised. -/
theorem get_drives_items_of_objs (elems : List Json)
    (h : ∀ d ∈ elems, Json.isObj d = true) :
    get_drives_items elems
      = Except.ok (List.map
          (fun d => (Json.pyGet d "id", Json.pyGet d "name")) elems) := by
  induction elems with
  | nil => rfl
  | cons d rest ih =>
    have hd : Json.isObj d = true := h d (List.mem_cons_self d rest)
    have ih2 := ih (fun x hx => h x (List.mem_cons_of_mem d hx))
    cases d with
    | obj fields => simp [get_drives_items, ih2]
    | null => simp [Json.isObj] at hd
    | bool b => simp [Json.isObj] at hd
    | num n => simp [Json.isObj] at hd
    | str s => simp [Json.isObj] at hd
    | arr xs => simp [Json.isObj] at hd

/-- C3: on a 200 token response with well-formed JSON carrying a non-empty
access_token string, get_graph_token returns that token; the expiry is absent
when expires_in is absent, and is now + expires_in, strictly after the
request time now, when expires_in is present with the positive lifetime a
valid grant carries. -/
theorem C3_token_success_shape
    (http : Transport) (now : Int) (tenant_domain client_id client_secret : String)
    (resp : Response) (j : Json) (t : String)
    (hreq : http (get_graph_token_request tenant_domain client_id client_secret)
        = Except.ok resp)
    (hstatus : resp.status = 200)
    (hjson : resp.json = Except.ok j)
    (htok : Json.pyGet j "access_token" = some (Json.str t))
    (hne : t ≠ "") :
    (t ≠ "")
    ∧ (Json.pyGet j "expires_in" = none →
        get_graph_token http now tenant_domain client_id client_secret
          = Except.ok (some (Json.str t), none))
    ∧ ∀ e : Int, Json.pyGet j "expires_in" = some (Json.num e) → 0 < e →
        get_graph_token http now tenant_domain client_id client_secret
          = Except.ok (some (Json.str t), some (now + e))
        ∧ now < now + e := by
  refine ⟨hne, ?_, ?_⟩
  · intro hexp
    simp [get_graph_token, get_graph_token_inner, hreq, hjson, hstatus, htok, hexp]
  · intro e hexp he
    constructor
    · simp [get_graph_token, get_graph_token_inner, hreq, hjson, hstatus, htok, hexp]
    · omega

/-- Witness for C3 on a canned 200 token payload. -/
theorem C3_token_success_shape_witness :
    get_graph_token tokenOkTransport 1000 "t" "c" "s"
      = Except.ok (some (Json.str "tok123"), some (1000 + 3599))
    ∧ (1000 : Int) < 1000 + 3599 :=
  (C3_token_success_shape tokenOkTransport 1000 "t" "c" "s"
      (okResponseOf tokenOkJson) tokenOkJson "tok123"
      rfl rfl rfl rfl (by decide)).2.2 3599 rfl (by decide)

/-- C5: on a 200 drives response, an absent or empty value array yields the
empty list and no failure; a present value array (of objects, as the remote
payload provides) yields its (id, name) pairs. -/
theorem C5_drives_value_handling
    (http : Transport) (site_id token : String)
    (resp : Response) (j : Json)
    (hreq : http (get_drives_request site_id token) = Except.ok resp)
    (hstatus : resp.status = 200)
    (hjson : resp.json = Except.ok j) :
    (Json.pyGet j "value" = none →
      get_drives http site_id token = Except.ok [])
    ∧ (Json.pyGet j "value" = some (Json.arr []) →
      get_drives http site_id token = Except.ok [])
    ∧ ∀ elems : List Json,
        Json.pyGet j "value" = some (Json.arr elems) →
        (∀ d ∈ elems, Json.isObj d = true) →
        get_drives http site_id token
          = Except.ok (List.map
              (fun d => (Json.pyGet d "id", Json.pyGet d "name")) elems) := by
  refine ⟨?_, ?_, ?_⟩
  · intro hval
    simp [get_drives, get_drives_inner, hreq, hjson, hstatus, hval]
  · intro hval
    simp [get_drives, get_drives_inner, hreq, hjson, hstatus, hval,
      get_drives_items]
  · intro elems hval hobj
    have hitems := get_drives_items_of_objs elems hobj
    simp [get_drives, get_drives_inner, hreq, hjson, hstatus, hval, hitems]

/-- Witness for C5 on canned drives payloads: absent value, empty value, and
a one-element value array. -/
theorem C5_drives_value_handling_witness :
    get_drives drivesAbsentTransport "sid" "tok" = Except.ok []
    ∧ get_drives drivesEmptyTransport "sid" "tok" = Except.ok []
    ∧ get_drives drivesOkTransport "sid" "tok"
        = Except.ok [(some (Json.str "d1"), some (Json.str "Documents"))] :=
  ⟨(C5_drives_value_handling drivesAbsentTransport "sid" "tok"
      (okResponseOf (Json.obj [])) (Json.obj []) rfl rfl rfl).1 rfl,
   (C5_drives_value_handling drivesEmptyTransport "sid" "tok"
      (okResponseOf (Json.obj [("value", Json.arr [])]))
      (Json.obj [("value", Json.arr [])]) rfl rfl rfl).2.1 rfl,
   (C5_drives_value_handling drivesOkTransport "sid" "tok"
      (okResponseOf drivesOkJson) drivesOkJson rfl rfl rfl).2.2
      [Json.obj [("id", Json.str "d1"), ("name", Json.str "Documents")]]
      rfl (by decide)⟩

/-- C6: on a non-200 token response with a JSON body, get_graph_token fails
and its message contains the error_description field verbatim, or contains
"Unknown error" when the field is absent. -/
theorem C6_token_error_description
    (http : Transport) (now : Int)
    (tenant_domain client_id client_secret : String)
    (resp : Response) (j : Json)
    (hreq : http (get_graph_token_request tenant_domain client_id client_secret)
        = Except.ok resp)
    (hjson : resp.json = Except.ok j)
    (hstatus : resp.status ≠ 200) :
    (∀ s : String, Json.find j "error_description" = some (Json.str s) →
      get_graph_token http now tenant_domain client_id client_secret
        = Except.error ("Error during token retrieval: " ++ s)
      ∧ strContainsStr ("Error during token retrieval: " ++ s) s = true)
    ∧ (Json.find j "error_description" = none →
      get_graph_token http now tenant_domain client_id client_secret
        = Except.error ("Error during token retrieval: " ++ "Unknown error")
      ∧ strContainsStr ("Error during token retrieval: " ++ "Unknown error")
          "Unknown error" = true) := by
  have hb : (resp.status != 200) = true := by
    simp only [bne_iff_ne, ne_eq]
    exact hstatus
  constructor
  · intro s hdesc
    refine ⟨?_, strContainsStr_append _ _⟩
    simp [get_graph_token, get_graph_token_inner, hreq, hjson, hb, hdesc,
      Json.pyStr]
  · intro hdesc
    refine ⟨?_, strContainsStr_append _ _⟩
    simp [get_graph_token, get_graph_token_inner, hreq, hjson, hb, hdesc]

/-- Witness for C6 on canned 400 token responses, with and without an error
description. -/
theorem C6_token_error_description_witness :
    (get_graph_token tokenErrTransport 0 "t" "c" "s"
        = Except.error ("Error during token retrieval: " ++ "bad creds")
      ∧ strContainsStr ("Error during token retrieval: " ++ "bad creds")
          "bad creds" = true)
    ∧ (get_graph_token tokenErrBareTransport 0 "t" "c" "s"
        = Except.error ("Error during token retrieval: " ++ "Unknown error")
      ∧ strContainsStr ("Error during token retrieval: " ++ "Unknown error")
          "Unknown error" = true) :=
  ⟨(C6_token_error_description tokenErrTransport 0 "t" "c" "s"
      tokenErrResponse (Json.obj [("error_description", Json.str "bad creds")])
      rfl rfl (by decide)).1 "bad creds" rfl,
   (C6_token_error_description tokenErrBareTransport 0 "t" "c" "s"
      tokenErrBareResponse (Json.obj []) rfl rfl (by decide)).2 rfl⟩

/-- C10: every failure of get_graph_token carries a message beginning with
"Error during token retrieval: ", whatever the cause; the wrapped text is
exactly the inner failure message, so causes differ only in that text. -/
theorem C10_token_error_label
    (http : Transport) (now : Int)
    (tenant_domain client_id client_secret : String) :
    (∀ e : String,
      get_graph_token http now tenant_domain client_id client_secret
        = Except.error e →
      strStartsWith e "Error during token retrieval: " = true)
    ∧ ∀ m : String,
      get_graph_token_inner http now tenant_domain client_id client_secret
        = Except.error m →
      get_graph_token http now tenant_domain client_id client_secret
        = Except.error ("Error during token retrieval: " ++ m) := by
  constructor
  · intro e he
    unfold get_graph_token at he
    cases hi : get_graph_token_inner http now tenant_domain client_id client_secret with
    | ok r => rw [hi] at he; cases he
    | error s =>
      rw [hi] at he
      simp only [Except.error.injEq] at he
      subst he
      exact strStartsWith_append _ _
  · intro m hm
    simp [get_graph_token, hm]

/-- Witness for C10 on a transport-level failure. -/
theorem C10_token_error_label_witness :
    strStartsWith "Error during token retrieval: connection refused"
      "Error during token retrieval: " = true
    ∧ get_graph_token netFailTransport 0 "t" "c" "s"
        = Except.error ("Error during token retrieval: " ++ "connection refused") :=
  ⟨(C10_token_error_label netFailTransport 0 "t" "c" "s").1
      "Error during token retrieval: connection refused" rfl,
   (C10_token_error_label netFailTransport 0 "t" "c" "s").2
      "connection refused" rfl⟩

/-- C4: with a valid base path, a 200 file response yields exactly the raw
response body bytes; a non-200 response whose JSON body carries error.message
yields a failure whose message contains that provider message. -/
theorem C4_file_bytes_and_error_message
    (http : Transport) (drive_id token file_name : String)
    (base_path : Option String) (hbp : basePathInvalid base_path = false)
    (resp : Response)
    (hreq : http (get_file_request drive_id token file_name base_path)
        = Except.ok resp) :
    (resp.status = 200 →
      get_file http drive_id token file_name base_path = Except.ok resp.bytes)
    ∧ ∀ (j errObj : Json) (m : String),
        resp.status ≠ 200 →
        resp.json = Except.ok j →
        Json.index j "error" = Except.ok errObj →
        Json.index errObj "message" = Except.ok (Json.str m) →
        get_file http drive_id token file_name base_path
          = Except.error ("Invalid Site: " ++ m)
        ∧ strContainsStr ("Invalid Site: " ++ m) m = true := by
  constructor
  · intro h200
    simp [get_file, hbp, get_file_inner, hreq, h200]
  · intro j errObj m hne hjson herr hmsg
    have hb : (resp.status != 200) = true := by
      simp only [bne_iff_ne, ne_eq]
      exact hne
    refine ⟨?_, strContainsStr_append _ _⟩
    simp [get_file, hbp, get_file_inner, hreq, hb, hjson, herr, hmsg,
      Json.pyStr]

/-- Witness for C4 on a 200 file response with a binary body and on a 404
response with a provider message. -/
theorem C4_file_bytes_and_error_message_witness :
    get_file fileOkTransport "d1" "tok" "q1.pdf" (some "/Reports")
      = Except.ok [37, 80, 68, 70]
    ∧ get_file fileErrTransport "d1" "tok" "q1.pdf" (some "/Reports")
        = Except.error ("Invalid Site: " ++ "item not found")
    ∧ strContainsStr ("Invalid Site: " ++ "item not found")
        "item not found" = true :=
  ⟨(C4_file_bytes_and_error_message fileOkTransport "d1" "tok" "q1.pdf"
      (some "/Reports") rfl fileOkResponse rfl).1 rfl,
   ((C4_file_bytes_and_error_message fileErrTransport "d1" "tok" "q1.pdf"
      (some "/Reports") rfl fileErrResponse rfl).2
      (Json.obj [("error", Json.obj [("message", Json.str "item not found")])])
      (Json.obj [("message", Json.str "item not found")]) "item not found"
      (by decide) rfl rfl rfl).1,
   ((C4_file_bytes_and_error_message fileErrTransport "d1" "tok" "q1.pdf"
      (some "/Reports") rfl fileErrResponse rfl).2
      (Json.obj [("error", Json.obj [("message", Json.str "item not found")])])
      (Json.obj [("message", Json.str "item not found")]) "item not found"
      (by decide) rfl rfl rfl).2⟩

/-- C7: the claim says every operation issues its request with automatic
retries disabled, but the source passes retries=False only in
get_graph_token, get_site, get_drives and get_children; in get_file the
retries=False argument is commented out (line 200), so the get_file request
keeps the default retry behaviour of the transport. -/
theorem C7_get_file_retries_not_disabled :
    (get_file_request "d1" "tok" "q1.pdf" none).retriesDisabled = false
    ∧ (get_graph_token_request "t" "c" "s").retriesDisabled = true
    ∧ (get_site_request "t" "site" "tok").retriesDisabled = true
    ∧ (get_drives_request "sid" "tok").retriesDisabled = true
    ∧ (get_children_request "d1" "tok" none).retriesDisabled = true :=
  ⟨rfl, rfl, rfl, rfl, rfl⟩

/-- C8: whenever the request/parse step of get_site, get_drives, get_children
or get_file fails with message m (non-200, network error or malformed JSON
alike), the operation fails with exactly "Invalid Site: " followed by m; the
last conjunct instantiates this for a transport failure of get_site. -/
theorem C8_invalid_site_rewrap
    (http : Transport)
    (tenant site token site_id drive_id file_name : String)
    (base_path category : Option String)
    (hbp : basePathInvalid base_path = false) (m : String) :
    (get_site_inner http tenant site token = Except.error m →
      get_site http tenant site token = Except.error ("Invalid Site: " ++ m))
    ∧ (get_drives_inner http site_id token = Except.error m →
      get_drives http site_id token = Except.error ("Invalid Site: " ++ m))
    ∧ (get_children_inner http drive_id token base_path category
        = Except.error m →
      get_children http drive_id token base_path category
        = Except.error ("Invalid Site: " ++ m))
    ∧ (get_file_inner http drive_id token file_name base_path
        = Except.error m →
      get_file http drive_id token file_name base_path
        = Except.error ("Invalid Site: " ++ m))
    ∧ (http (get_site_request tenant site token) = Except.error m →
      get_site http tenant site token
        = Except.error ("Invalid Site: " ++ m)) := by
  refine ⟨?_, ?_, ?_, ?_, ?_⟩
  · intro h
    simp [get_site, h]
  · intro h
    simp [get_drives, h]
  · intro h
    simp [get_children, hbp, h]
  · intro h
    simp [get_file, hbp, h]
  · intro h
    simp [get_site, get_site_inner, h]

/-- Witness for C8 on a transport that raises a network exception. -/
theorem C8_invalid_site_rewrap_witness :
    get_site netFailTransport "t" "site" "tok"
      = Except.error ("Invalid Site: " ++ "connection refused")
    ∧ get_drives netFailTransport "sid" "tok"
      = Except.error ("Invalid Site: " ++ "connection refused")
    ∧ get_children netFailTransport "d1" "tok" none none
      = Except.error ("Invalid Site: " ++ "connection refused")
    ∧ get_file netFailTransport "d1" "tok" "q1.pdf" none
      = Except.error ("Invalid Site: " ++ "connection refused") :=
  ⟨(C8_invalid_site_rewrap netFailTransport "t" "site" "tok" "sid" "d1" "q1.pdf"
      none none rfl "connection refused").1 rfl,
   (C8_invalid_site_rewrap netFailTransport "t" "site" "tok" "sid" "d1" "q1.pdf"
      none none rfl "connection refused").2.1 rfl,
   (C8_invalid_site_rewrap netFailTransport "t" "site" "tok" "sid" "d1" "q1.pdf"
      none none rfl "connection refused").2.2.1 rfl,
   (C8_invalid_site_rewrap netFailTransport "t" "site" "tok" "sid" "d1" "q1.pdf"
      none none rfl "connection refused").2.2.2.1 rfl⟩
